import Mathlib

/-!
Verification of the configuration pipeline of the linktree-modern repository.

The development shallowly embeds the pipeline modules:

* src/utils/validation.ts : validateUrl, validateImageUrl, sanitizeText,
  validateGoogleAnalyticsId, validateFacebookPixelId,
  validateSocialMediaUsername, validateHexColor, validateConfig,
  sanitizeConfig, isSafeExternalUrl
* src/utils/config-loader.ts : DEFAULT_CONFIG, loadConfig, loadUserConfig,
  mergeConfig
* src/types/config.ts : the configuration record types

JavaScript strings are modelled by Lean String (operations are written over
the underlying character lists so they compute inside the kernel), JSON
documents by an explicit dynamic value type JValue, and the runtime URL
constructor by a small model of the WHATWG parser restricted to the fields
the source reads (protocol and hostname).
-/

/-! ## Dynamic JSON values

JavaScript values as seen by the generic deep merge: the undef constructor
is the JavaScript value undefined, which for-in loops still enumerate but
mergeConfig explicitly skips. -/

inductive JValue where
  | null
  | undef
  | bool (b : Bool)
  | num (n : Int)
  | str (s : String)
  | arr (elems : List JValue)
  | obj (fields : List (String × JValue))

/-- Association-list lookup: JavaScript property read base[key], with none
playing the role of a property that is absent. -/
def lookupAL {κ α : Type} [DecidableEq κ] : List (κ × α) → κ → Option α
  | [], _ => none
  | (k', v) :: rest, k => if k' = k then some v else lookupAL rest k

/-- Association-list update: JavaScript property write result[key] = v,
which overwrites an existing key in place and otherwise appends the key in
insertion order. -/
def setAL {κ α : Type} [DecidableEq κ] : List (κ × α) → κ → α → List (κ × α)
  | [], k, v => [(k, v)]
  | (k', v') :: rest, k, v => if k' = k then (k', v) :: rest else (k', v') :: setAL rest k v

/-! ## mergeConfig (config-loader.ts, lines 224-243)

The source is a generic deep merge over plain records.  mergeV is the
function itself; mergeL is its for-in loop, carrying the base fields, the
result object built so far (initialised to a shallow copy of the base, the
spread in line 225), and the remaining override fields.  The isObject guard
of the source (item and typeof object and not an array) is exactly the obj
constructor of JValue, so the recursive branch fires precisely when both
the base value and the override value are obj.  Every call site of the
source passes two records, hence the catch-all arm of mergeV is
unreachable. -/

mutual

def mergeV : JValue → JValue → JValue
  | .obj bfs, .obj ofs => .obj (mergeL bfs bfs ofs)
  | b, _ => b

def mergeL (bfs result : List (String × JValue)) : List (String × JValue) → List (String × JValue)
  | [] => result
  | (k, ov) :: rest =>
    match ov with
    | .undef => mergeL bfs result rest
    | .obj osub =>
      match lookupAL bfs k with
      | some (.obj bsub) => mergeL bfs (setAL result k (mergeV (.obj bsub) (.obj osub))) rest
      | _ => mergeL bfs (setAL result k (.obj osub)) rest
    | _ => mergeL bfs (setAL result k ov) rest

end

/-- Top-level entry point with the name of the source function: both
arguments are records at every call site. -/
def mergeConfig (base override : JValue) : JValue := mergeV base override

/-! ## Character-list string utilities

JavaScript string primitives used by validation.ts, written over character
lists so that concrete instances reduce by rfl inside the kernel. -/

/-- Decides whether the first list is a prefix of the second. -/
def isPrefixCL : List Char → List Char → Bool
  | [], _ => true
  | _ :: _, [] => false
  | a :: as, b :: bs => a == b && isPrefixCL as bs

/-- Decides whether pat occurs as a contiguous substring: the semantics of
a regular-expression test of a plain literal pattern. -/
def hasInfixCL (pat : List Char) : List Char → Bool
  | [] => pat.isEmpty
  | c :: rest => isPrefixCL pat (c :: rest) || hasInfixCL pat rest

/-- ASCII lowercasing, the /i flag of the source regexes and the
toLowerCase call of isSafeExternalUrl. -/
def lowerCL (cs : List Char) : List Char := cs.map Char.toLower

/-- String startsWith over the character-list model. -/
def startsWithS (p s : String) : Bool := isPrefixCL p.data s.data

/-- String endsWith over the character-list model. -/
def endsWithS (p s : String) : Bool := isPrefixCL p.data.reverse s.data.reverse

/-- Case-insensitive substring test: models pattern.test(url) for the
lower-case literal regex patterns of validateUrl. -/
def hasSubstrCI (pat s : String) : Bool := hasInfixCL pat.data (lowerCL s.data)

/-- Replaces every occurrence of one character by a replacement string:
text.replace(/c/g, rep) for a single-character pattern. -/
def replaceCharCL (c : Char) (rep : List Char) : List Char → List Char
  | [] => []
  | x :: xs => if x = c then rep ++ replaceCharCL c rep xs else x :: replaceCharCL c rep xs

/-- JavaScript String.prototype.trim: strips whitespace from both ends. -/
def trimCL (cs : List Char) : List Char :=
  ((cs.dropWhile Char.isWhitespace).reverse.dropWhile Char.isWhitespace).reverse

/-! ## URL model

Model of the WHATWG URL constructor (the runtime service new URL(url)
invoked by validation.ts), restricted to the two fields the source reads:
protocol (lower-cased scheme followed by a colon) and hostname
(lower-cased).  Parsing fails (the constructor throws) when the string has
no scheme, or when a special scheme has an empty host.  For the non-special
schemes the source cares about (mailto, tel, javascript, data, vbscript)
the remainder is an opaque path and the hostname is empty. -/

structure URLParts where
  protocol : String
  hostname : String
deriving Repr, DecidableEq

/-- Characters allowed in a URL scheme after the leading letter. -/
def schemeChar (c : Char) : Bool := c.isAlphanum || c == '+' || c == '-' || c == '.'

/-- Splits a character list into scheme and remainder at the first colon;
fails when the colon is missing or a non-scheme character appears first. -/
def splitSchemeAux (acc : List Char) : List Char → Option (List Char × List Char)
  | [] => none
  | c :: rest =>
    if c == ':' then some (acc.reverse, rest)
    else if schemeChar c then splitSchemeAux (c :: acc) rest
    else none

/-- Schemes the WHATWG standard treats as special (authority required). -/
def specialSchemes : List String := ["http", "https", "ws", "wss", "ftp", "file"]

/-- Drops a userinfo component: keeps the suffix after the last at sign. -/
def dropUserinfo (cs : List Char) : List Char :=
  (cs.reverse.takeWhile (fun c => !(c == '@'))).reverse

/-- Model of new URL(url): none models the constructor throwing. -/
def parseURL (url : String) : Option URLParts :=
  match url.data with
  | [] => none
  | c :: rest =>
    if !c.isAlpha then none
    else
      match splitSchemeAux [c] rest with
      | none => none
      | some (schemeCs, afterColon) =>
        let scheme := String.mk (lowerCL schemeCs)
        if specialSchemes.contains scheme then
          let afterSlashes := afterColon.dropWhile (fun c => c == '/')
          let authority := afterSlashes.takeWhile (fun c => !(c == '/' || c == '?' || c == '#'))
          let hostPort := (dropUserinfo authority).takeWhile (fun c => !(c == ':'))
          if hostPort.isEmpty then none
          else some ⟨scheme ++ ":", String.mk (lowerCL hostPort)⟩
        else some ⟨scheme ++ ":", ""⟩

/-! ## validateUrl (validation.ts, lines 10-33) -/

/-- Protocol allowlist of validateUrl. -/
def allowedProtocols : List String := ["http:", "https:", "mailto:", "tel:"]

/-- Blocklist regexes of validateUrl; each is a case-insensitive literal
substring pattern tested against the whole URL string. -/
def dangerousPatterns : List String := ["javascript:", "data:", "vbscript:", "file:", "ftp:"]

/-- The dangerousPatterns.some(pattern.test(url)) step of validateUrl. -/
def dangerousTest (url : String) : Bool :=
  dangerousPatterns.any fun p => hasSubstrCI p url

/-- Whether the parsed protocol of the URL is on the allowlist: the first
half of validateUrl. -/
def allowedByScheme (url : String) : Bool :=
  match parseURL url with
  | none => false
  | some u => allowedProtocols.contains u.protocol

/-- validateUrl: parse (returning false when the constructor throws),
check the protocol allowlist, then reject when any blocklist pattern
matches anywhere in the raw string. -/
def validateUrl (url : String) : Bool :=
  match parseURL url with
  | none => false
  | some u =>
    if !(allowedProtocols.contains u.protocol) then false
    else !(dangerousTest url)

/-! ## validateImageUrl (validation.ts, lines 38-51) -/

/-- Image extensions accepted by validateImageUrl, lower case. -/
def imageExtensions : List String := [".jpg", ".jpeg", ".png", ".gif", ".webp", ".svg"]

/-- All prefixes of the list obtained by cutting just before each question
mark, plus the full list: the positions at which the regex alternative
(question mark followed by anything) may start, with the full list covering
the empty alternative. -/
def queryCutsAux (acc : List Char) : List Char → List (List Char)
  | [] => [acc.reverse]
  | c :: rest =>
    if c == '?' then acc.reverse :: queryCutsAux (c :: acc) rest
    else queryCutsAux (c :: acc) rest

/-- Model of the anchored regex of validateImageUrl: some suffix of the
lower-cased URL is a dot, an image extension, then an optional query
string running to the end. -/
def imageExtensionTest (url : String) : Bool :=
  let lower := lowerCL url.data
  (queryCutsAux [] lower).any fun candidate =>
    imageExtensions.any fun ext => isPrefixCL ext.data.reverse candidate.reverse

/-- validateImageUrl: validateUrl, then an http or https prefix, then the
image-extension regex. -/
def validateImageUrl (url : String) : Bool :=
  if !validateUrl url then false
  else if !(startsWithS "http://" url || startsWithS "https://" url) then false
  else imageExtensionTest url

/-! ## sanitizeText (validation.ts, lines 56-67) -/

/-- sanitizeText: returns the empty string on falsy input, then escapes
ampersand, angle brackets, double quote, single quote and slash in the
order of the source, and trims. -/
def sanitizeText (text : String) : String :=
  if text = "" then ""
  else
    String.mk (trimCL
      (replaceCharCL '/' "&#x2F;".data
        (replaceCharCL (Char.ofNat 39) "&#x27;".data
          (replaceCharCL '"' "&quot;".data
            (replaceCharCL '>' "&gt;".data
              (replaceCharCL '<' "&lt;".data
                (replaceCharCL '&' "&amp;".data text.data)))))))

/-! ## Remaining small validators (validation.ts, lines 72-109) -/

/-- Upper-case letter or digit, the character class of the analytics id. -/
def isUpperAlnum (c : Char) : Bool := c.isDigit || ('A' ≤ c && c ≤ 'Z')

/-- validateGoogleAnalyticsId: anchored regex G- then ten of [A-Z0-9]. -/
def validateGoogleAnalyticsId (id : String) : Bool :=
  match id.data with
  | 'G' :: '-' :: rest => rest.length == 10 && rest.all isUpperAlnum
  | _ => false

/-- validateFacebookPixelId: anchored regex of 15 or 16 digits. -/
def validateFacebookPixelId (id : String) : Bool :=
  id.data.all Char.isDigit && (id.data.length == 15 || id.data.length == 16)

/-- Letter, digit or underscore. -/
def isWordChar (c : Char) : Bool := c.isAlpha || c.isDigit || c == '_'

/-- Letter, digit, underscore or dot. -/
def isWordDotChar (c : Char) : Bool := isWordChar c || c == '.'

/-- Letter, digit or hyphen. -/
def isAlnumDash (c : Char) : Bool := c.isAlpha || c.isDigit || c == '-'

/-- validateSocialMediaUsername: the empty username is always valid, a
known platform applies its anchored character-class regex with length
bounds, and an unknown platform is permissively accepted. -/
def validateSocialMediaUsername (platform username : String) : Bool :=
  if username = "" then true
  else
    let cs := username.data
    let n := cs.length
    if platform = "twitter" then cs.all isWordChar && 1 ≤ n && n ≤ 15
    else if platform = "instagram" then cs.all isWordDotChar && 1 ≤ n && n ≤ 30
    else if platform = "github" then cs.all isAlnumDash && 1 ≤ n && n ≤ 39
    else if platform = "linkedin" then cs.all isAlnumDash && 3 ≤ n && n ≤ 100
    else if platform = "tiktok" then cs.all isWordDotChar && 1 ≤ n && n ≤ 24
    else if platform = "twitch" then cs.all isWordChar && 4 ≤ n && n ≤ 25
    else true

/-- Hexadecimal digit of the hex-color regex. -/
def isHexDigitChar (c : Char) : Bool := c.isDigit || ('a' ≤ c && c ≤ 'f') || ('A' ≤ c && c ≤ 'F')

/-- validateHexColor: anchored regex of a hash then exactly six hex digits. -/
def validateHexColor (color : String) : Bool :=
  match color.data with
  | '#' :: rest => rest.length == 6 && rest.all isHexDigitChar
  | _ => false

/-! ## isSafeExternalUrl (validation.ts, lines 242-267) -/

/-- The private-address regex list of isSafeExternalUrl, applied to the
lower-cased hostname.  The 172 alternation covers exactly the second
octets 16 through 31. -/
def privateIpTest (hostname : String) : Bool :=
  hostname == "localhost" ||
  startsWithS "127." hostname ||
  startsWithS "192.168." hostname ||
  startsWithS "10." hostname ||
  ((List.range 16).any fun i => startsWithS ("172." ++ toString (16 + i) ++ ".") hostname) ||
  hostname == "::1" ||
  startsWithS "fc00:" hostname ||
  startsWithS "fe80:" hostname

/-- isSafeExternalUrl: validateUrl, then re-parse and reject when the
lower-cased hostname matches a private-address pattern. -/
def isSafeExternalUrl (url : String) : Bool :=
  if !validateUrl url then false
  else
    match parseURL url with
    | none => false
    | some u => !(privateIpTest (String.mk (lowerCL u.hostname.data)))

example : validateUrl "https://example.com" = true := by decide
example : validateUrl "javascript:alert(1)" = false := by decide
example : validateUrl "mailto:hello@example.com" = true := by decide
example : validateHexColor "#6366f1" = true := by decide
example : isSafeExternalUrl "http://127.0.0.1/x" = false := by decide
example : isSafeExternalUrl "http://169.254.169.254/" = true := by decide
example : isSafeExternalUrl "https://example.com" = true := by decide
example : validateImageUrl "https://via.placeholder.com/400x400/6366f1/ffffff?text=You" = false := by decide
example : validateImageUrl "https://example.com/a.png" = true := by decide
example : validateImageUrl "https://example.com/a.png?v=1" = true := by decide
example : sanitizeText "  a&b  " = "a&amp;b" := by decide

/-! ## Typed configuration records (src/types/config.ts)

Optional fields of the TypeScript interfaces become Option String; the
JavaScript truthiness guard on such a field holds exactly when the field
is some non-empty string. -/

inductive ColorScheme where
  | light | dark | auto
deriving Repr, DecidableEq

inductive BackgroundStyle where
  | solid | gradient | image
deriving Repr, DecidableEq

inductive FontFamily where
  | inter | poppins | roboto | montserrat | playfair
deriving Repr, DecidableEq

inductive ButtonStyle where
  | rounded | square | pill
deriving Repr, DecidableEq

inductive ButtonAnimation where
  | animNone | scale | glow | lift
deriving Repr, DecidableEq

inductive MaxWidth where
  | sm | md | lg | xl | full
deriving Repr, DecidableEq

inductive ConfigAlignment where
  | left | center | right
deriving Repr, DecidableEq

inductive Spacing where
  | compact | normal | relaxed
deriving Repr, DecidableEq

inductive SocialMediaPosition where
  | top | bottom | both
deriving Repr, DecidableEq

structure ProfileConfig where
  name : String
  bio : String
  avatar : String
  location : Option String
deriving Repr, DecidableEq

structure LinkConfig where
  title : String
  url : String
  description : Option String
  icon : String
  enabled : Bool
  newTab : Bool
  featured : Bool
deriving Repr, DecidableEq

structure SocialMediaConfig where
  twitter : Option String
  instagram : Option String
  github : Option String
  linkedin : Option String
  youtube : Option String
  tiktok : Option String
  discord : Option String
  twitch : Option String
deriving Repr, DecidableEq

structure ThemeConfig where
  colorScheme : ColorScheme
  primaryColor : String
  backgroundStyle : BackgroundStyle
  backgroundImage : Option String
  fontFamily : FontFamily
  buttonStyle : ButtonStyle
  buttonAnimation : ButtonAnimation
  showBorder : Bool
deriving Repr, DecidableEq

structure LayoutConfig where
  maxWidth : MaxWidth
  alignment : ConfigAlignment
  spacing : Spacing
  showProfileFirst : Bool
  showSocialMedia : Bool
  socialMediaPosition : SocialMediaPosition
deriving Repr, DecidableEq

structure SEOConfig where
  title : String
  description : String
  keywords : String
  favicon : Option String
deriving Repr, DecidableEq

structure AnalyticsConfig where
  googleAnalyticsId : Option String
  facebookPixelId : Option String
  trackClicks : Bool
  trackSocialClicks : Bool
deriving Repr, DecidableEq

structure AdvancedConfig where
  enablePWA : Bool
  enableDarkMode : Bool
  enableAnimations : Bool
  preloadImages : Bool
deriving Repr, DecidableEq

structure LinkTreeConfig where
  profile : ProfileConfig
  links : List LinkConfig
  socialMedia : SocialMediaConfig
  theme : ThemeConfig
  layout : LayoutConfig
  seo : SEOConfig
  analytics : AnalyticsConfig
  advanced : AdvancedConfig
deriving Repr, DecidableEq

structure ConfigError where
  field : String
  message : String
deriving Repr, DecidableEq

structure ValidationResult where
  isValid : Bool
  errors : List ConfigError
  warnings : List ConfigError
deriving Repr, DecidableEq

/-- Truthiness of an optional string field: present and non-empty. -/
def optTruthy : Option String → Bool
  | some s => s != ""
  | none => false

/-! ## DEFAULT_CONFIG (config-loader.ts, lines 20-93) -/

def DEFAULT_CONFIG : LinkTreeConfig :=
  { profile :=
      { name := "Your Name"
        bio := "Welcome to my links! Find all my important stuff here."
        avatar := "https://via.placeholder.com/400x400/6366f1/ffffff?text=You"
        location := some "" }
    links :=
      [ { title := "My Website"
          url := "https://example.com"
          description := some "Check out my main website"
          icon := "globe"
          enabled := true
          newTab := true
          featured := false }
      , { title := "Contact Me"
          url := "mailto:hello@example.com"
          description := some "Get in touch via email"
          icon := "mail"
          enabled := true
          newTab := false
          featured := true } ]
    socialMedia :=
      { twitter := some "", instagram := some "", github := some "", linkedin := some ""
        youtube := some "", tiktok := some "", discord := some "", twitch := some "" }
    theme :=
      { colorScheme := .auto
        primaryColor := "#6366f1"
        backgroundStyle := .gradient
        backgroundImage := some ""
        fontFamily := .inter
        buttonStyle := .rounded
        buttonAnimation := .scale
        showBorder := true }
    layout :=
      { maxWidth := .md
        alignment := .center
        spacing := .normal
        showProfileFirst := true
        showSocialMedia := true
        socialMediaPosition := .bottom }
    seo :=
      { title := "My Links"
        description := "Find all my important links in one place"
        keywords := "links, profile, bio, social media"
        favicon := some "" }
    analytics :=
      { googleAnalyticsId := some ""
        facebookPixelId := some ""
        trackClicks := true
        trackSocialClicks := true }
    advanced :=
      { enablePWA := false
        enableDarkMode := true
        enableAnimations := true
        preloadImages := true } }

/-! ## validateConfig (validation.ts, lines 112-207)

The imperative push statements of the source become list concatenation in
the same order; each forEach block becomes its own function so that the
structure of the error list can be reasoned about per section. -/

/-- Dotted error path of the link at a given index. -/
def linkField (i : Nat) (suffix : String) : String :=
  "links[" ++ (toString i ++ ("]." ++ suffix))

/-- Dotted error path of a social-media platform. -/
def socialField (platform : String) : String := "socialMedia." ++ platform

/-- The profile block of validateConfig. -/
def profileErrors (p : ProfileConfig) : List ConfigError :=
  (if p.name == "" then [⟨"profile.name", "Name is required"⟩] else [])
  ++ (if p.name != "" && decide (50 < p.name.length) then
        [⟨"profile.name", "Name must be 50 characters or less"⟩] else [])
  ++ (if p.bio != "" && decide (160 < p.bio.length) then
        [⟨"profile.bio", "Bio must be 160 characters or less"⟩] else [])
  ++ (if p.avatar != "" && !validateImageUrl p.avatar then
        [⟨"profile.avatar", "Invalid avatar URL format"⟩] else [])
  ++ (match p.location with
      | some l =>
        if l != "" && decide (50 < l.length) then
          [⟨"profile.location", "Location must be 50 characters or less"⟩] else []
      | none => [])

/-- The body of the links.forEach block of validateConfig. -/
def linkErrors (i : Nat) (link : LinkConfig) : List ConfigError :=
  (if link.title == "" then [⟨linkField i "title", "Link title is required"⟩] else [])
  ++ (if link.title != "" && decide (50 < link.title.length) then
        [⟨linkField i "title", "Link title must be 50 characters or less"⟩] else [])
  ++ (if link.url == "" || !validateUrl link.url then
        [⟨linkField i "url", "Invalid URL format"⟩] else [])
  ++ (if link.url != "" && decide (2048 < link.url.length) then
        [⟨linkField i "url", "URL too long (max 2048 characters)"⟩] else [])
  ++ (match link.description with
      | some d =>
        if d != "" && decide (100 < d.length) then
          [⟨linkField i "description", "Description must be 100 characters or less"⟩] else []
      | none => [])

/-- One entry of the Object.entries(config.socialMedia) loop. -/
def socialEntryErrors (platform : String) (username : Option String) : List ConfigError :=
  match username with
  | some u =>
    if u != "" && !validateSocialMediaUsername platform u then
      [⟨socialField platform, "Invalid " ++ (platform ++ " username format")⟩] else []
  | none => []

/-- The social-media block of validateConfig; Object.entries enumerates the
eight platform keys in insertion order. -/
def socialErrors (sm : SocialMediaConfig) : List ConfigError :=
  socialEntryErrors "twitter" sm.twitter
  ++ socialEntryErrors "instagram" sm.instagram
  ++ socialEntryErrors "github" sm.github
  ++ socialEntryErrors "linkedin" sm.linkedin
  ++ socialEntryErrors "youtube" sm.youtube
  ++ socialEntryErrors "tiktok" sm.tiktok
  ++ socialEntryErrors "discord" sm.discord
  ++ socialEntryErrors "twitch" sm.twitch

/-- validateConfig of validation.ts: collects every error and warning in
source order without early exit; isValid holds when the error list is
empty. -/
def validateConfig (config : LinkTreeConfig) : ValidationResult :=
  let errors :=
    profileErrors config.profile
    ++ (if decide (20 < config.links.length) then [⟨"links", "Maximum 20 links allowed"⟩] else [])
    ++ (config.links.enum.map fun p => linkErrors p.1 p.2).flatten
    ++ socialErrors config.socialMedia
    ++ (if !validateHexColor config.theme.primaryColor then
          [⟨"theme.primaryColor", "Invalid hex color format"⟩] else [])
    ++ (match config.theme.backgroundImage with
        | some b =>
          if b != "" && !validateImageUrl b then
            [⟨"theme.backgroundImage", "Invalid background image URL"⟩] else []
        | none => [])
    ++ (match config.seo.favicon with
        | some fv =>
          if fv != "" && !validateImageUrl fv then
            [⟨"seo.favicon", "Invalid favicon URL format"⟩] else []
        | none => [])
    ++ (match config.analytics.googleAnalyticsId with
        | some g =>
          if g != "" && !validateGoogleAnalyticsId g then
            [⟨"analytics.googleAnalyticsId", "Invalid Google Analytics ID format (should be G-XXXXXXXXXX)"⟩]
          else []
        | none => [])
    ++ (match config.analytics.facebookPixelId with
        | some fb =>
          if fb != "" && !validateFacebookPixelId fb then
            [⟨"analytics.facebookPixelId", "Invalid Facebook Pixel ID format"⟩] else []
        | none => [])
  let warnings :=
    (if decide (60 < config.seo.title.length) then
       [⟨"seo.title", "Title longer than 60 characters may be truncated in search results"⟩] else [])
    ++ (if decide (160 < config.seo.description.length) then
          [⟨"seo.description", "Description longer than 160 characters may be truncated"⟩] else [])
  { isValid := errors.isEmpty, errors := errors, warnings := warnings }

/-! ## sanitizeConfig (validation.ts, lines 212-237)

Escapes the free-text fields and passes every other section through
unchanged.  A falsy optional field maps to undefined (none); in particular
it never removes a link, valid or not. -/

def sanitizeConfig (config : LinkTreeConfig) : LinkTreeConfig :=
  { profile :=
      { name := sanitizeText config.profile.name
        bio := sanitizeText config.profile.bio
        avatar := config.profile.avatar
        location :=
          match config.profile.location with
          | some l => if l != "" then some (sanitizeText l) else none
          | none => none }
    links := config.links.map fun link =>
      { link with
        title := sanitizeText link.title
        description :=
          match link.description with
          | some d => if d != "" then some (sanitizeText d) else none
          | none => none }
    socialMedia := config.socialMedia
    theme := config.theme
    layout := config.layout
    seo :=
      { title := sanitizeText config.seo.title
        description := sanitizeText config.seo.description
        keywords := sanitizeText config.seo.keywords
        favicon := config.seo.favicon }
    analytics := config.analytics
    advanced := config.advanced }

example : (validateConfig DEFAULT_CONFIG).isValid = false := by decide
example : (validateConfig DEFAULT_CONFIG).errors = [⟨"profile.avatar", "Invalid avatar URL format"⟩] := by decide
example : (validateConfig DEFAULT_CONFIG).warnings = [] := by decide
example : sanitizeConfig DEFAULT_CONFIG =
    { DEFAULT_CONFIG with profile := { DEFAULT_CONFIG.profile with location := none } } := by decide

/-! ## JSON image of a typed configuration

configToJ is the JSON document of a total configuration, used to express
the merge of the dynamically-typed loader pipeline; optional fields that
are none produce no key, matching a JSON document in which the key is
absent.  Enumerated values are their JSON string spellings. -/

def ColorScheme.toS : ColorScheme → String
  | .light => "light" | .dark => "dark" | .auto => "auto"

def BackgroundStyle.toS : BackgroundStyle → String
  | .solid => "solid" | .gradient => "gradient" | .image => "image"

def FontFamily.toS : FontFamily → String
  | .inter => "inter" | .poppins => "poppins" | .roboto => "roboto"
  | .montserrat => "montserrat" | .playfair => "playfair"

def ButtonStyle.toS : ButtonStyle → String
  | .rounded => "rounded" | .square => "square" | .pill => "pill"

def ButtonAnimation.toS : ButtonAnimation → String
  | .animNone => "none" | .scale => "scale" | .glow => "glow" | .lift => "lift"

def MaxWidth.toS : MaxWidth → String
  | .sm => "sm" | .md => "md" | .lg => "lg" | .xl => "xl" | .full => "full"

def ConfigAlignment.toS : ConfigAlignment → String
  | .left => "left" | .center => "center" | .right => "right"

def Spacing.toS : Spacing → String
  | .compact => "compact" | .normal => "normal" | .relaxed => "relaxed"

def SocialMediaPosition.toS : SocialMediaPosition → String
  | .top => "top" | .bottom => "bottom" | .both => "both"

/-- Optional string field of a JSON record: absent when none. -/
def optStrField (k : String) : Option String → List (String × JValue)
  | some s => [(k, .str s)]
  | none => []

def profileToJ (p : ProfileConfig) : JValue :=
  .obj ([("name", .str p.name), ("bio", .str p.bio), ("avatar", .str p.avatar)]
    ++ optStrField "location" p.location)

def linkToJ (l : LinkConfig) : JValue :=
  .obj ([("title", .str l.title), ("url", .str l.url)]
    ++ optStrField "description" l.description
    ++ [("icon", .str l.icon), ("enabled", .bool l.enabled),
        ("newTab", .bool l.newTab), ("featured", .bool l.featured)])

def socialToJ (sm : SocialMediaConfig) : JValue :=
  .obj (optStrField "twitter" sm.twitter ++ optStrField "instagram" sm.instagram
    ++ optStrField "github" sm.github ++ optStrField "linkedin" sm.linkedin
    ++ optStrField "youtube" sm.youtube ++ optStrField "tiktok" sm.tiktok
    ++ optStrField "discord" sm.discord ++ optStrField "twitch" sm.twitch)

def themeToJ (t : ThemeConfig) : JValue :=
  .obj ([("colorScheme", .str t.colorScheme.toS), ("primaryColor", .str t.primaryColor),
         ("backgroundStyle", .str t.backgroundStyle.toS)]
    ++ optStrField "backgroundImage" t.backgroundImage
    ++ [("fontFamily", .str t.fontFamily.toS), ("buttonStyle", .str t.buttonStyle.toS),
        ("buttonAnimation", .str t.buttonAnimation.toS), ("showBorder", .bool t.showBorder)])

def layoutToJ (l : LayoutConfig) : JValue :=
  .obj [("maxWidth", .str l.maxWidth.toS), ("alignment", .str l.alignment.toS),
        ("spacing", .str l.spacing.toS), ("showProfileFirst", .bool l.showProfileFirst),
        ("showSocialMedia", .bool l.showSocialMedia),
        ("socialMediaPosition", .str l.socialMediaPosition.toS)]

def seoToJ (s : SEOConfig) : JValue :=
  .obj ([("title", .str s.title), ("description", .str s.description),
         ("keywords", .str s.keywords)] ++ optStrField "favicon" s.favicon)

def analyticsToJ (a : AnalyticsConfig) : JValue :=
  .obj (optStrField "googleAnalyticsId" a.googleAnalyticsId
    ++ optStrField "facebookPixelId" a.facebookPixelId
    ++ [("trackClicks", .bool a.trackClicks), ("trackSocialClicks", .bool a.trackSocialClicks)])

def advancedToJ (a : AdvancedConfig) : JValue :=
  .obj [("enablePWA", .bool a.enablePWA), ("enableDarkMode", .bool a.enableDarkMode),
        ("enableAnimations", .bool a.enableAnimations), ("preloadImages", .bool a.preloadImages)]

def configToJ (c : LinkTreeConfig) : JValue :=
  .obj [("profile", profileToJ c.profile), ("links", .arr (c.links.map linkToJ)),
        ("socialMedia", socialToJ c.socialMedia), ("theme", themeToJ c.theme),
        ("layout", layoutToJ c.layout), ("seo", seoToJ c.seo),
        ("analytics", analyticsToJ c.analytics), ("advanced", advancedToJ c.advanced)]

/-! ## Typed reading of a merged candidate

The dynamically-typed source manipulates the merged candidate directly.
configFromJ delimits the JSON shapes on which the typed embeddings of the
downstream steps (validateConfig, sanitizeConfig) coincide with the
dynamic code; a candidate outside this domain makes the dynamic pipeline
shape-dependent (for instance links.forEach throws a TypeError when links
is not an array), which the loader model maps to its catch-all branch. -/

def asString : Option JValue → Option String
  | some (.str s) => some s
  | _ => none

def asOptString : Option JValue → Option (Option String)
  | some (.str s) => some (some s)
  | some .undef => some none
  | none => some none
  | _ => none

def asBool : Option JValue → Option Bool
  | some (.bool b) => some b
  | _ => none

def decodeColorScheme : Option JValue → Option ColorScheme
  | some (.str "light") => some .light
  | some (.str "dark") => some .dark
  | some (.str "auto") => some .auto
  | _ => none

def decodeBackgroundStyle : Option JValue → Option BackgroundStyle
  | some (.str "solid") => some .solid
  | some (.str "gradient") => some .gradient
  | some (.str "image") => some .image
  | _ => none

def decodeFontFamily : Option JValue → Option FontFamily
  | some (.str "inter") => some .inter
  | some (.str "poppins") => some .poppins
  | some (.str "roboto") => some .roboto
  | some (.str "montserrat") => some .montserrat
  | some (.str "playfair") => some .playfair
  | _ => none

def decodeButtonStyle : Option JValue → Option ButtonStyle
  | some (.str "rounded") => some .rounded
  | some (.str "square") => some .square
  | some (.str "pill") => some .pill
  | _ => none

def decodeButtonAnimation : Option JValue → Option ButtonAnimation
  | some (.str "none") => some .animNone
  | some (.str "scale") => some .scale
  | some (.str "glow") => some .glow
  | some (.str "lift") => some .lift
  | _ => none

def decodeMaxWidth : Option JValue → Option MaxWidth
  | some (.str "sm") => some .sm
  | some (.str "md") => some .md
  | some (.str "lg") => some .lg
  | some (.str "xl") => some .xl
  | some (.str "full") => some .full
  | _ => none

def decodeAlignment : Option JValue → Option ConfigAlignment
  | some (.str "left") => some .left
  | some (.str "center") => some .center
  | some (.str "right") => some .right
  | _ => none

def decodeSpacing : Option JValue → Option Spacing
  | some (.str "compact") => some .compact
  | some (.str "normal") => some .normal
  | some (.str "relaxed") => some .relaxed
  | _ => none

def decodeSocialMediaPosition : Option JValue → Option SocialMediaPosition
  | some (.str "top") => some .top
  | some (.str "bottom") => some .bottom
  | some (.str "both") => some .both
  | _ => none

def decodeProfile : JValue → Option ProfileConfig
  | .obj fs => do
    let name ← asString (lookupAL fs "name")
    let bio ← asString (lookupAL fs "bio")
    let avatar ← asString (lookupAL fs "avatar")
    let location ← asOptString (lookupAL fs "location")
    pure ⟨name, bio, avatar, location⟩
  | _ => none

def decodeLink : JValue → Option LinkConfig
  | .obj fs => do
    let title ← asString (lookupAL fs "title")
    let url ← asString (lookupAL fs "url")
    let description ← asOptString (lookupAL fs "description")
    let icon ← asString (lookupAL fs "icon")
    let enabled ← asBool (lookupAL fs "enabled")
    let newTab ← asBool (lookupAL fs "newTab")
    let featured ← asBool (lookupAL fs "featured")
    pure ⟨title, url, description, icon, enabled, newTab, featured⟩
  | _ => none

def decodeLinkList : List JValue → Option (List LinkConfig)
  | [] => some []
  | v :: rest => do
    let l ← decodeLink v
    let ls ← decodeLinkList rest
    pure (l :: ls)

def decodeSocial : JValue → Option SocialMediaConfig
  | .obj fs => do
    let twitter ← asOptString (lookupAL fs "twitter")
    let instagram ← asOptString (lookupAL fs "instagram")
    let github ← asOptString (lookupAL fs "github")
    let linkedin ← asOptString (lookupAL fs "linkedin")
    let youtube ← asOptString (lookupAL fs "youtube")
    let tiktok ← asOptString (lookupAL fs "tiktok")
    let discord ← asOptString (lookupAL fs "discord")
    let twitch ← asOptString (lookupAL fs "twitch")
    pure ⟨twitter, instagram, github, linkedin, youtube, tiktok, discord, twitch⟩
  | _ => none

def decodeTheme : JValue → Option ThemeConfig
  | .obj fs => do
    let colorScheme ← decodeColorScheme (lookupAL fs "colorScheme")
    let primaryColor ← asString (lookupAL fs "primaryColor")
    let backgroundStyle ← decodeBackgroundStyle (lookupAL fs "backgroundStyle")
    let backgroundImage ← asOptString (lookupAL fs "backgroundImage")
    let fontFamily ← decodeFontFamily (lookupAL fs "fontFamily")
    let buttonStyle ← decodeButtonStyle (lookupAL fs "buttonStyle")
    let buttonAnimation ← decodeButtonAnimation (lookupAL fs "buttonAnimation")
    let showBorder ← asBool (lookupAL fs "showBorder")
    pure ⟨colorScheme, primaryColor, backgroundStyle, backgroundImage, fontFamily,
          buttonStyle, buttonAnimation, showBorder⟩
  | _ => none

def decodeLayout : JValue → Option LayoutConfig
  | .obj fs => do
    let maxWidth ← decodeMaxWidth (lookupAL fs "maxWidth")
    let alignment ← decodeAlignment (lookupAL fs "alignment")
    let spacing ← decodeSpacing (lookupAL fs "spacing")
    let showProfileFirst ← asBool (lookupAL fs "showProfileFirst")
    let showSocialMedia ← asBool (lookupAL fs "showSocialMedia")
    let socialMediaPosition ← decodeSocialMediaPosition (lookupAL fs "socialMediaPosition")
    pure ⟨maxWidth, alignment, spacing, showProfileFirst, showSocialMedia, socialMediaPosition⟩
  | _ => none

def decodeSeo : JValue → Option SEOConfig
  | .obj fs => do
    let title ← asString (lookupAL fs "title")
    let description ← asString (lookupAL fs "description")
    let keywords ← asString (lookupAL fs "keywords")
    let favicon ← asOptString (lookupAL fs "favicon")
    pure ⟨title, description, keywords, favicon⟩
  | _ => none

def decodeAnalytics : JValue → Option AnalyticsConfig
  | .obj fs => do
    let googleAnalyticsId ← asOptString (lookupAL fs "googleAnalyticsId")
    let facebookPixelId ← asOptString (lookupAL fs "facebookPixelId")
    let trackClicks ← asBool (lookupAL fs "trackClicks")
    let trackSocialClicks ← asBool (lookupAL fs "trackSocialClicks")
    pure ⟨googleAnalyticsId, facebookPixelId, trackClicks, trackSocialClicks⟩
  | _ => none

def decodeAdvanced : JValue → Option AdvancedConfig
  | .obj fs => do
    let enablePWA ← asBool (lookupAL fs "enablePWA")
    let enableDarkMode ← asBool (lookupAL fs "enableDarkMode")
    let enableAnimations ← asBool (lookupAL fs "enableAnimations")
    let preloadImages ← asBool (lookupAL fs "preloadImages")
    pure ⟨enablePWA, enableDarkMode, enableAnimations, preloadImages⟩
  | _ => none

def configFromJ : JValue → Option LinkTreeConfig
  | .obj fs => do
    let profileJ ← lookupAL fs "profile"
    let profile ← decodeProfile profileJ
    let linksJ ← lookupAL fs "links"
    let links ← match linksJ with
      | .arr elems => decodeLinkList elems
      | _ => none
    let socialJ ← lookupAL fs "socialMedia"
    let socialMedia ← decodeSocial socialJ
    let themeJ ← lookupAL fs "theme"
    let theme ← decodeTheme themeJ
    let layoutJ ← lookupAL fs "layout"
    let layout ← decodeLayout layoutJ
    let seoJ ← lookupAL fs "seo"
    let seo ← decodeSeo seoJ
    let analyticsJ ← lookupAL fs "analytics"
    let analytics ← decodeAnalytics analyticsJ
    let advancedJ ← lookupAL fs "advanced"
    let advanced ← decodeAdvanced advancedJ
    pure ⟨profile, links, socialMedia, theme, layout, seo, analytics, advanced⟩
  | _ => none

/-! ## loadConfig (config-loader.ts, lines 176-218)

The asynchronous fetch of loadUserConfig is an external service; its
possible outcomes are a JSON document or a failure (network error, non-ok
response status, or a JSON parse error), all of which the catch inside
loadUserConfig turns into the empty override.  loadConfigBody is the body
of the try block of loadConfig; an error value models an exception thrown
inside the body after the fetch resolved, and the match in loadConfig is
the catch that turns any such exception into the unmodified
DEFAULT_CONFIG. -/

inductive FetchOutcome where
  | success (json : JValue)
  | failure (message : String)

/-- loadUserConfig: returns the fetched JSON document, or the empty
override when fetching or parsing failed (the catch at lines 212-215). -/
def loadUserConfig : FetchOutcome → JValue
  | .success j => j
  | .failure _ => .obj []

/-- The try-block body of loadConfig: merge the user candidate over the
defaults, validate with validateConfig, and either sanitize the merged
result (valid path) or merge the sanitized merged result back over the
defaults (invalid path, line 191). -/
def loadConfigBody (f : FetchOutcome) : Except String LinkTreeConfig :=
  let userConfig := loadUserConfig f
  let mergedJ := mergeConfig (configToJ DEFAULT_CONFIG) userConfig
  match configFromJ mergedJ with
  | none => .error "TypeError"
  | some merged =>
    let validation := validateConfig merged
    if validation.isValid then .ok (sanitizeConfig merged)
    else
      match configFromJ (mergeConfig (configToJ DEFAULT_CONFIG) (configToJ (sanitizeConfig merged))) with
      | some degraded => .ok degraded
      | none => .error "TypeError"

/-- loadConfig: the try and catch of lines 177-202; any exception from the
body yields the unmodified static defaults. -/
def loadConfig (f : FetchOutcome) : LinkTreeConfig :=
  match loadConfigBody f with
  | .ok c => c
  | .error _ => DEFAULT_CONFIG

example : configFromJ (configToJ DEFAULT_CONFIG) = some DEFAULT_CONFIG := by decide
example : loadConfig (.failure "unavailable") = DEFAULT_CONFIG := by decide
example : loadConfig (.success (.obj [])) = DEFAULT_CONFIG := by decide
example : loadConfigBody (.success (.obj [("links", .num 5)])) = .error "TypeError" := rfl

/-! ## Heap model of mergeConfig (config-loader.ts, lines 224-243)

The purity and aliasing contract of the merge concerns JavaScript object
identity, so the merge is embedded a second time over an explicit heap:
records and arrays live at numeric addresses, primitive values are
immediate.  The spread on line 225 and the recursive calls allocate fresh
addresses; a property write on the freshly built result touches no
pre-existing address.  The assignment in the else branch (line 238) stores
the override value itself, so when that value is a reference the address
is shared with the override structure.  The recursion is measured by
explicit fuel, decremented at every step, so that concrete runs reduce
inside the kernel; exhausting the fuel returns none. -/

inductive HVal where
  | null
  | undef
  | bool (b : Bool)
  | num (n : Int)
  | str (s : String)
  | ref (a : Nat)
deriving Repr, DecidableEq

inductive HObj where
  | record (fields : List (String × HVal))
  | array (elems : List HVal)
deriving Repr, DecidableEq

structure Heap where
  next : Nat
  objs : List (Nat × HObj)
deriving Repr, DecidableEq

def Heap.get (h : Heap) (a : Nat) : Option HObj := lookupAL h.objs a

def Heap.alloc (h : Heap) (o : HObj) : Heap × Nat :=
  (⟨h.next + 1, (h.next, o) :: h.objs⟩, h.next)

/-- Heap well-formedness: every allocated address is below the allocation
counter, so fresh addresses are really fresh. -/
def Heap.wfB (h : Heap) : Bool := h.objs.all fun p => decide (p.1 < h.next)

/-- The isObject guard of the source over heap values: a reference to a
record (typeof object, not null, not an array). -/
def isRecordRef (h : Heap) (v : HVal) : Bool :=
  match v with
  | .ref a =>
    match h.get a with
    | some (.record _) => true
    | _ => false
  | _ => false

mutual

def mergeConfigH : Nat → Heap → Nat → Nat → Option (Heap × Nat)
  | 0, _, _, _ => none
  | fuel + 1, h, b, o =>
    match h.get b, h.get o with
    | some (.record bfs), some (.record ofs) =>
      match mergeFieldsH fuel h bfs bfs ofs with
      | some (h', flds) => some ((Heap.alloc h' (.record flds)).1, (Heap.alloc h' (.record flds)).2)
      | none => none
    | _, _ => none

def mergeFieldsH : Nat → Heap → List (String × HVal) → List (String × HVal) →
    List (String × HVal) → Option (Heap × List (String × HVal))
  | 0, _, _, _, _ => none
  | _ + 1, h, _, result, [] => some (h, result)
  | fuel + 1, h, bfs, result, (k, ov) :: rest =>
    if ov = .undef then mergeFieldsH fuel h bfs result rest
    else
      match lookupAL bfs k with
      | some bv =>
        if isRecordRef h ov && isRecordRef h bv then
          match ov, bv with
          | .ref oa, .ref ba =>
            match mergeConfigH fuel h ba oa with
            | some (h', m) => mergeFieldsH fuel h' bfs (setAL result k (.ref m)) rest
            | none => none
          | _, _ => none
        else mergeFieldsH fuel h bfs (setAL result k ov) rest
      | none => mergeFieldsH fuel h bfs (setAL result k ov) rest

end

/-- Reading any pre-existing address after an allocation gives the old
object. -/
theorem Heap.get_alloc_lt (h : Heap) (o : HObj) (a : Nat) (ha : a < h.next) :
    (h.alloc o).1.get a = h.get a := by
  simp only [Heap.alloc, Heap.get, lookupAL]
  rw [if_neg (by omega)]

/-- Reading the freshly allocated address gives the new object. -/
theorem Heap.get_alloc_self (h : Heap) (o : HObj) :
    (h.alloc o).1.get (h.alloc o).2 = some o := by
  simp [Heap.alloc, Heap.get, lookupAL]

/-- Lookup misses every key bounded below the sought address. -/
theorem lookupAL_none_of_all_lt (l : List (Nat × HObj)) (n a : Nat)
    (hw : ∀ p ∈ l, p.1 < n) (ha : n ≤ a) : lookupAL l a = none := by
  induction l with
  | nil => rfl
  | cons p rest ih =>
    obtain ⟨k, o⟩ := p
    simp only [lookupAL]
    have hp := hw (k, o) (by simp)
    rw [if_neg (by simp at hp; omega)]
    exact ih fun q hq => hw q (by simp [hq])

/-- In a well-formed heap, every address at or above the counter is
unallocated. -/
theorem Heap.get_ge_none (h : Heap) (hw : h.wfB = true) (a : Nat) (ha : h.next ≤ a) :
    h.get a = none := by
  have hw' : ∀ p ∈ h.objs, p.1 < h.next := by
    intro p hp
    have := (List.all_eq_true.mp hw) p hp
    simpa using this
  show lookupAL h.objs a = none
  exact lookupAL_none_of_all_lt h.objs h.next a hw' ha

/-- Agreement of two heaps on every address allocated in the first. -/
def heapAgrees (h h' : Heap) : Prop := ∀ a, a < h.next → h'.get a = h.get a

theorem heapAgrees_refl (h : Heap) : heapAgrees h h := fun _ _ => rfl

theorem heapAgrees_trans_le {h1 h2 h3 : Heap} (h12 : heapAgrees h1 h2)
    (h23 : heapAgrees h2 h3) (hle : h1.next ≤ h2.next) : heapAgrees h1 h3 := by
  intro a ha
  rw [h23 a (by omega), h12 a ha]

/-- Joint input-preservation statement for the heap merge: a successful
run leaves every pre-existing address untouched, never shrinks the
allocation counter, and (for the record-producing entry point) returns a
record at an address that was not allocated before the call.  Proved for
the two mutually recursive functions simultaneously by induction on the
fuel. -/
theorem mergeH_preserves : ∀ fuel : Nat,
    (∀ h b o h' r, mergeConfigH fuel h b o = some (h', r) →
      heapAgrees h h' ∧ h.next ≤ h'.next ∧ h.next ≤ r ∧ r < h'.next ∧
        ∃ flds, h'.get r = some (.record flds)) ∧
    (∀ h bfs res ofs h' flds, mergeFieldsH fuel h bfs res ofs = some (h', flds) →
      heapAgrees h h' ∧ h.next ≤ h'.next) := by
  intro fuel
  induction fuel with
  | zero =>
    constructor
    · intro h b o h' r hm
      simp [mergeConfigH] at hm
    · intro h bfs res ofs h' flds hm
      simp [mergeFieldsH] at hm
  | succ n ih =>
    constructor
    · intro h b o h' r hm
      simp only [mergeConfigH] at hm
      split at hm
      case _ bfs ofs _ _ =>
        split at hm
        case _ h2 flds2 hmf =>
          simp only [Option.some.injEq, Prod.mk.injEq] at hm
          obtain ⟨hh, hr⟩ := hm
          subst hh
          subst hr
          obtain ⟨hag, hle⟩ := ih.2 _ _ _ _ _ _ hmf
          refine ⟨?_, by simp [Heap.alloc]; omega, by simp [Heap.alloc]; omega,
            by simp [Heap.alloc], ⟨flds2, Heap.get_alloc_self h2 (.record flds2)⟩⟩
          intro a ha
          rw [Heap.get_alloc_lt h2 (.record flds2) a (by omega)]
          exact hag a ha
        case _ => exact absurd hm (by simp)
      case _ => exact absurd hm (by simp)
    · intro h bfs res ofs h' flds hm
      match ofs with
      | [] =>
        simp only [mergeFieldsH, Option.some.injEq, Prod.mk.injEq] at hm
        obtain ⟨hh, _⟩ := hm
        subst hh
        exact ⟨heapAgrees_refl h, le_refl _⟩
      | (k, ov) :: rest =>
        simp only [mergeFieldsH] at hm
        split at hm
        · exact ih.2 _ _ _ _ _ _ hm
        · split at hm
          case _ bv hbv =>
            split at hm
            · split at hm
              case _ oa ba =>
                split at hm
                case _ h2 m hmc =>
                  obtain ⟨hag1, hle1, _, _, _⟩ := ih.1 _ _ _ _ _ hmc
                  obtain ⟨hag2, hle2⟩ := ih.2 _ _ _ _ _ _ hm
                  exact ⟨heapAgrees_trans_le hag1 hag2 hle1, by omega⟩
                case _ => exact absurd hm (by simp)
              case _ => exact absurd hm (by simp)
            · exact ih.2 _ _ _ _ _ _ hm
          case _ => exact ih.2 _ _ _ _ _ _ hm

/-! ## Key-level behaviour of the pure merge -/

theorem lookupAL_eq_none_of_not_mem {κ α : Type} [DecidableEq κ] (l : List (κ × α)) (k : κ)
    (h : k ∉ l.map Prod.fst) : lookupAL l k = none := by
  induction l with
  | nil => rfl
  | cons p rest ih =>
    obtain ⟨k', v⟩ := p
    simp only [List.map_cons, List.mem_cons] at h
    push_neg at h
    simp only [lookupAL]
    rw [if_neg fun he => h.1 he.symm]
    exact ih h.2

theorem lookupAL_setAL_self {κ α : Type} [DecidableEq κ] (l : List (κ × α)) (k : κ) (v : α) :
    lookupAL (setAL l k v) k = some v := by
  induction l with
  | nil => simp [setAL, lookupAL]
  | cons p rest ih =>
    obtain ⟨k', v'⟩ := p
    simp only [setAL]
    by_cases hk : k' = k
    · simp [hk, lookupAL]
    · simp only [if_neg hk, lookupAL]
      exact ih

theorem lookupAL_setAL_ne {κ α : Type} [DecidableEq κ] (l : List (κ × α)) (k k' : κ) (v : α)
    (h : k' ≠ k) : lookupAL (setAL l k' v) k = lookupAL l k := by
  induction l with
  | nil => simp [setAL, lookupAL, if_neg h]
  | cons p rest ih =>
    obtain ⟨k0, v0⟩ := p
    simp only [setAL]
    by_cases hk : k0 = k'
    · subst hk
      simp only [if_pos rfl, lookupAL]
      rw [if_neg h, if_neg h]
    · simp only [if_neg hk, lookupAL]
      by_cases hk2 : k0 = k
      · rw [if_pos hk2, if_pos hk2]
      · rw [if_neg hk2, if_neg hk2]
        exact ih

/-- A key absent from the override is untouched by the merge loop. -/
theorem mergeL_lookup_absent (bfs : List (String × JValue)) (k : String) :
    ∀ (ofs result : List (String × JValue)), lookupAL ofs k = none →
      lookupAL (mergeL bfs result ofs) k = lookupAL result k := by
  intro ofs
  induction ofs with
  | nil => intro result _; rfl
  | cons p rest ih =>
    obtain ⟨k', ov⟩ := p
    intro result hno
    simp only [lookupAL] at hno
    by_cases hk : k' = k
    · rw [if_pos hk] at hno
      exact absurd hno (by simp)
    · rw [if_neg hk] at hno
      rcases ov with _ | _ | b | n | s | es | osub
      · rw [mergeL.eq_4 _ _ _ _ _ (fun h => JValue.noConfusion h) (fun _ h => JValue.noConfusion h)]
        rw [ih _ hno, lookupAL_setAL_ne _ _ _ _ hk]
      · rw [mergeL.eq_2]
        exact ih _ hno
      · rw [mergeL.eq_4 _ _ _ _ _ (fun h => JValue.noConfusion h) (fun _ h => JValue.noConfusion h)]
        rw [ih _ hno, lookupAL_setAL_ne _ _ _ _ hk]
      · rw [mergeL.eq_4 _ _ _ _ _ (fun h => JValue.noConfusion h) (fun _ h => JValue.noConfusion h)]
        rw [ih _ hno, lookupAL_setAL_ne _ _ _ _ hk]
      · rw [mergeL.eq_4 _ _ _ _ _ (fun h => JValue.noConfusion h) (fun _ h => JValue.noConfusion h)]
        rw [ih _ hno, lookupAL_setAL_ne _ _ _ _ hk]
      · rw [mergeL.eq_4 _ _ _ _ _ (fun h => JValue.noConfusion h) (fun _ h => JValue.noConfusion h)]
        rw [ih _ hno, lookupAL_setAL_ne _ _ _ _ hk]
      · rw [mergeL.eq_3]
        rcases hbk : lookupAL bfs k' with _ | bv <;> (try rcases bv) <;>
          simp only [ih _ hno, lookupAL_setAL_ne _ _ _ _ hk]

/-- Full per-key characterisation of the merge loop, for an override whose
keys are distinct (JavaScript object keys always are): an absent or
undefined override key leaves the accumulated result untouched, a record
override value recurses when the base value is also a record, and every
other combination stores the override value wholesale. -/
theorem mergeL_lookup_spec (bfs : List (String × JValue)) (k : String) :
    ∀ (ofs result : List (String × JValue)), (ofs.map Prod.fst).Nodup →
      lookupAL (mergeL bfs result ofs) k =
        match lookupAL ofs k with
        | none => lookupAL result k
        | some .undef => lookupAL result k
        | some (.obj osub) =>
          match lookupAL bfs k with
          | some (.obj bsub) => some (mergeV (.obj bsub) (.obj osub))
          | _ => some (.obj osub)
        | some ov => some ov := by
  intro ofs
  induction ofs with
  | nil =>
    intro result _
    rw [mergeL.eq_1]
    rfl
  | cons p rest ih =>
    obtain ⟨k', ov⟩ := p
    intro result hnd
    rw [List.map_cons, List.nodup_cons] at hnd
    obtain ⟨hkn, hnd'⟩ := hnd
    by_cases hk : k' = k
    · subst hk
      have hrn : lookupAL rest k' = none := lookupAL_eq_none_of_not_mem rest k' hkn
      have hcons : lookupAL ((k', ov) :: rest) k' = some ov := by simp [lookupAL]
      rw [hcons]
      have habs := fun res => mergeL_lookup_absent bfs k' rest res hrn
      rcases ov with _ | _ | b | n | s | es | osub
      · rw [mergeL.eq_4 _ _ _ _ _ (fun h => JValue.noConfusion h) (fun _ h => JValue.noConfusion h)]
        rw [habs, lookupAL_setAL_self]
      · rw [mergeL.eq_2, habs]
      · rw [mergeL.eq_4 _ _ _ _ _ (fun h => JValue.noConfusion h) (fun _ h => JValue.noConfusion h)]
        rw [habs, lookupAL_setAL_self]
      · rw [mergeL.eq_4 _ _ _ _ _ (fun h => JValue.noConfusion h) (fun _ h => JValue.noConfusion h)]
        rw [habs, lookupAL_setAL_self]
      · rw [mergeL.eq_4 _ _ _ _ _ (fun h => JValue.noConfusion h) (fun _ h => JValue.noConfusion h)]
        rw [habs, lookupAL_setAL_self]
      · rw [mergeL.eq_4 _ _ _ _ _ (fun h => JValue.noConfusion h) (fun _ h => JValue.noConfusion h)]
        rw [habs, lookupAL_setAL_self]
      · rw [mergeL.eq_3]
        rcases hbk : lookupAL bfs k' with _ | bv <;> (try rcases bv) <;>
          simp only [habs, lookupAL_setAL_self]
    · have hcons : lookupAL ((k', ov) :: rest) k = lookupAL rest k := by
        simp [lookupAL, if_neg hk]
      rw [hcons]
      rcases ov with _ | _ | b | n | s | es | osub
      · rw [mergeL.eq_4 _ _ _ _ _ (fun h => JValue.noConfusion h) (fun _ h => JValue.noConfusion h)]
        simp only [ih _ hnd', lookupAL_setAL_ne _ _ _ _ hk]
      · rw [mergeL.eq_2]
        exact ih _ hnd'
      · rw [mergeL.eq_4 _ _ _ _ _ (fun h => JValue.noConfusion h) (fun _ h => JValue.noConfusion h)]
        simp only [ih _ hnd', lookupAL_setAL_ne _ _ _ _ hk]
      · rw [mergeL.eq_4 _ _ _ _ _ (fun h => JValue.noConfusion h) (fun _ h => JValue.noConfusion h)]
        simp only [ih _ hnd', lookupAL_setAL_ne _ _ _ _ hk]
      · rw [mergeL.eq_4 _ _ _ _ _ (fun h => JValue.noConfusion h) (fun _ h => JValue.noConfusion h)]
        simp only [ih _ hnd', lookupAL_setAL_ne _ _ _ _ hk]
      · rw [mergeL.eq_4 _ _ _ _ _ (fun h => JValue.noConfusion h) (fun _ h => JValue.noConfusion h)]
        simp only [ih _ hnd', lookupAL_setAL_ne _ _ _ _ hk]
      · rw [mergeL.eq_3]
        rcases hbk : lookupAL bfs k' with _ | bv <;> (try rcases bv) <;>
          simp only [ih _ hnd', lookupAL_setAL_ne _ _ _ _ hk]

/-! ## Which checks can produce an error at field profile.bio -/

/-- Whether an error entry is at the dotted path profile.bio. -/
def isBioField (e : ConfigError) : Bool := e.field == "profile.bio"

theorem any_ite_singleton (c : Bool) (e : ConfigError) (p : ConfigError → Bool) :
    ((if c then [e] else []).any p) = (c && p e) := by
  cases c <;> simp

theorem mem_ite_singleton {e e0 : ConfigError} {c : Bool} (h : e ∈ (if c then [e0] else [])) :
    e = e0 := by
  cases c <;> simp_all

theorem app_ne_of_head (a x b : String) (c d : Char) (cs ds : List Char)
    (ha : a.data = c :: cs) (hb : b.data = d :: ds) (hcd : c ≠ d) : a ++ x ≠ b := by
  intro h
  have h1 : a.data ++ x.data = b.data := by
    have := congrArg String.data h
    simpa [String.data_append] using this
  rw [ha, hb, List.cons_append] at h1
  injection h1 with h2 _
  exact hcd h2

theorem linkField_ne_bio (i : Nat) (s : String) : linkField i s ≠ "profile.bio" :=
  app_ne_of_head _ _ _ 'l' 'p' _ _ rfl rfl (by decide)

theorem socialField_ne_bio (p : String) : socialField p ≠ "profile.bio" :=
  app_ne_of_head _ _ _ 's' 'p' _ _ rfl rfl (by decide)

theorem anyBio_profile (p : ProfileConfig) :
    (profileErrors p).any isBioField = (p.bio != "" && decide (160 < p.bio.length)) := by
  rcases hl : p.location with _ | l <;>
    simp only [profileErrors, hl, List.any_append, any_ite_singleton, List.any_nil] <;>
    simp [isBioField,
      (by decide : (("profile.name" : String) == "profile.bio") = false),
      (by decide : (("profile.avatar" : String) == "profile.bio") = false),
      (by decide : (("profile.location" : String) == "profile.bio") = false),
      (by decide : (("profile.bio" : String) == "profile.bio") = true)]

theorem anyBio_linkErrors (i : Nat) (link : LinkConfig) :
    (linkErrors i link).any isBioField = false := by
  rw [List.any_eq_false]
  intro e he
  simp only [linkErrors, List.mem_append] at he
  have hfield : ∃ suf, e.field = linkField i suf := by
    rcases he with (((h4 | h4) | h4) | h4) | h4
    · exact ⟨"title", by rw [mem_ite_singleton h4]⟩
    · exact ⟨"title", by rw [mem_ite_singleton h4]⟩
    · exact ⟨"url", by rw [mem_ite_singleton h4]⟩
    · exact ⟨"url", by rw [mem_ite_singleton h4]⟩
    · rcases hd : link.description with _ | d
      · rw [hd] at h4
        simp at h4
      · rw [hd] at h4
        exact ⟨"description", by rw [mem_ite_singleton h4]⟩
  obtain ⟨suf, hsuf⟩ := hfield
  simp [isBioField, hsuf, linkField_ne_bio i suf]

theorem anyBio_links (links : List LinkConfig) :
    ((links.enum.map fun p => linkErrors p.1 p.2).flatten).any isBioField = false := by
  rw [List.any_eq_false]
  intro e he
  rw [List.mem_flatten] at he
  obtain ⟨l, hl, hel⟩ := he
  rw [List.mem_map] at hl
  obtain ⟨pr, _, rfl⟩ := hl
  have := anyBio_linkErrors pr.1 pr.2
  rw [List.any_eq_false] at this
  exact this e hel

theorem anyBio_socialEntry (platform : String) (u : Option String) :
    (socialEntryErrors platform u).any isBioField = false := by
  rcases u with _ | s
  · rfl
  · simp only [socialEntryErrors, any_ite_singleton]
    have : isBioField ⟨socialField platform, "Invalid " ++ (platform ++ " username format")⟩ = false := by
      simp [isBioField, socialField_ne_bio platform]
    rw [this, Bool.and_false]

theorem anyBio_social (sm : SocialMediaConfig) :
    (socialErrors sm).any isBioField = false := by
  simp only [socialErrors, List.any_append, anyBio_socialEntry, Bool.or_false]

/-! ## Claim theorems -/

/-- Claim C1: the claimed loader guarantee fails on the code.  Already with
the user source absent (the loader then merges the empty override onto the
defaults), loadConfig returns the default configuration, whose avatar URL
has no image extension and therefore fails validateImageUrl; re-validating
the returned Configuration yields isValid = false, contradicting the
always-schema-valid guarantee. -/
theorem loadConfig_output_fails_validation :
    loadConfig (FetchOutcome.failure "fetch failed") = DEFAULT_CONFIG ∧
    (validateConfig (loadConfig (FetchOutcome.failure "fetch failed"))).isValid = false := by
  constructor
  · decide
  · decide

/-- Claim C2 concrete inputs: one link with a blocked URL scheme and one
fully valid link, as a JSON override document. -/
def invalidLinkJ : JValue :=
  .obj [("title", .str "Bad Link"), ("url", .str "javascript:alert(1)"),
        ("icon", .str "link"), ("enabled", .bool true), ("newTab", .bool true),
        ("featured", .bool false)]

def validLinkJ : JValue :=
  .obj [("title", .str "Good Link"), ("url", .str "https://example.com/page"),
        ("icon", .str "link"), ("enabled", .bool true), ("newTab", .bool true),
        ("featured", .bool false)]

def mixedLinksOverride : JValue := .obj [("links", .arr [invalidLinkJ, validLinkJ])]

/-- Claim C2: the claimed field-level fallback fails on the code.  For an
override mixing one invalid-URL link with one valid link, the returned
links sequence keeps both links: the degraded path calls the sanitizer of
validation.ts, which only HTML-escapes text and never drops an invalid
link, so the invalid javascript-scheme link survives into the returned
Configuration instead of being filtered out. -/
theorem loadConfig_keeps_invalid_link :
    validateUrl "javascript:alert(1)" = false ∧
    validateUrl "https://example.com/page" = true ∧
    (loadConfig (FetchOutcome.success mixedLinksOverride)).links.map LinkConfig.url
      = ["javascript:alert(1)", "https://example.com/page"] := by
  refine ⟨by decide, by decide, by decide⟩

/-- Claim C3: the static defaults fail their own schema validation.  The
avatar placeholder URL ends in a query string without an image extension,
so validateImageUrl rejects it and validateConfig reports exactly one
error, at profile.avatar, making isValid false rather than true. -/
theorem DEFAULT_CONFIG_fails_validation :
    validateImageUrl DEFAULT_CONFIG.profile.avatar = false ∧
    validateConfig DEFAULT_CONFIG =
      { isValid := false
        errors := [⟨"profile.avatar", "Invalid avatar URL format"⟩]
        warnings := [] } := by
  constructor
  · decide
  · decide

/-- Claim C4: loadConfig is total over every fetch behaviour and the
catch of its try block maps any exception thrown inside the pipeline body
to the unmodified DEFAULT_CONFIG, while a normally returning body value is
passed through unchanged. -/
theorem loadConfig_total_and_catches (f : FetchOutcome) :
    (∀ e, loadConfigBody f = .error e → loadConfig f = DEFAULT_CONFIG) ∧
    (∀ c, loadConfigBody f = .ok c → loadConfig f = c) := by
  constructor
  · intro e he
    simp [loadConfig, he]
  · intro c hc
    simp [loadConfig, hc]

/-- Claim C4 witness: a candidate whose links key is the number 5 makes
the validator body fault (links.forEach on a non-array), and loadConfig
returns the unmodified defaults. -/
theorem loadConfig_total_and_catches_witness :
    loadConfigBody (.success (.obj [("links", .num 5)])) = .error "TypeError" ∧
    loadConfig (.success (.obj [("links", .num 5)])) = DEFAULT_CONFIG :=
  ⟨rfl, (loadConfig_total_and_catches (.success (.obj [("links", .num 5)]))).1 "TypeError" rfl⟩

/-- Claim C5: the SSRF guard misses the IPv4 link-local range.  The
pattern list covers localhost, 127.0.0.0/8, the three private ranges,
IPv6 loopback, fc00 and fe80, but has no pattern for 169.254.0.0/16, so
the canonical metadata address is accepted, contradicting the claimed
rejection of link-local addresses. -/
theorem isSafeExternalUrl_misses_ipv4_link_local :
    isSafeExternalUrl "http://127.0.0.1/x" = false ∧
    isSafeExternalUrl "https://example.com" = true ∧
    isSafeExternalUrl "http://169.254.169.254/" = true := by
  refine ⟨by decide, by decide, by decide⟩

/-- Claim C6 counterexample input: the defaults with an empty bio and a
valid avatar image URL. -/
def bioEmptyConfig : LinkTreeConfig :=
  { DEFAULT_CONFIG with
    profile := { DEFAULT_CONFIG.profile with bio := "", avatar := "https://example.com/a.png" } }

/-- Claim C6 counterexample: a configuration whose profile.bio is empty
passes validateConfig with isValid = true and no error at profile.bio, so
bio presence is not an error-level check. -/
theorem validateConfig_accepts_empty_bio :
    bioEmptyConfig.profile.bio = "" ∧
    (validateConfig bioEmptyConfig).isValid = true ∧
    (validateConfig bioEmptyConfig).errors.any isBioField = false := by
  refine ⟨rfl, by decide, by decide⟩

/-- Claim C6 amended: validateConfig reports an error at profile.bio
exactly when the bio is non-empty and longer than 160 characters; an
absent or empty bio is never flagged (unlike profile.name, whose absence
is an error). -/
theorem validateConfig_bio_only_length (cfg : LinkTreeConfig) :
    (validateConfig cfg).errors.any isBioField
      = (cfg.profile.bio != "" && decide (160 < cfg.profile.bio.length)) := by
  rcases hb : cfg.theme.backgroundImage with _ | b <;>
  rcases hf : cfg.seo.favicon with _ | fv <;>
  rcases hg : cfg.analytics.googleAnalyticsId with _ | g <;>
  rcases hp : cfg.analytics.facebookPixelId with _ | fb <;>
  simp only [validateConfig, hb, hf, hg, hp, List.any_append, anyBio_profile, anyBio_links,
    anyBio_social, any_ite_singleton, List.any_nil,
    (by decide : isBioField ⟨"links", "Maximum 20 links allowed"⟩ = false),
    (by decide : isBioField ⟨"theme.primaryColor", "Invalid hex color format"⟩ = false),
    (by decide : isBioField ⟨"theme.backgroundImage", "Invalid background image URL"⟩ = false),
    (by decide : isBioField ⟨"seo.favicon", "Invalid favicon URL format"⟩ = false),
    (by decide :
      isBioField ⟨"analytics.googleAnalyticsId",
        "Invalid Google Analytics ID format (should be G-XXXXXXXXXX)"⟩ = false),
    (by decide : isBioField ⟨"analytics.facebookPixelId", "Invalid Facebook Pixel ID format"⟩ = false),
    Bool.and_false, Bool.or_false, Bool.false_or]

/-- Claim C7: merging the empty override onto any base record, and in
particular onto the JSON document of any Configuration, returns the base
unchanged. -/
theorem mergeConfig_empty_override (A : LinkTreeConfig) (fs : List (String × JValue)) :
    mergeConfig (configToJ A) (.obj []) = configToJ A ∧
    mergeConfig (.obj fs) (.obj []) = .obj fs :=
  ⟨rfl, rfl⟩

/-- Claim C8: per-key semantics of the deep merge on records with distinct
override keys.  A key absent from the override, or overridden with
undefined, keeps the base value; when both values are records the merge
recurses; otherwise (scalars, arrays, explicit empty string or false, or a
type mismatch) the override value replaces the base value wholesale. -/
theorem mergeConfig_key_semantics (bfs ofs : List (String × JValue)) (k : String)
    (hnd : (ofs.map Prod.fst).Nodup) :
    mergeConfig (.obj bfs) (.obj ofs) = .obj (mergeL bfs bfs ofs) ∧
    lookupAL (mergeL bfs bfs ofs) k =
      match lookupAL ofs k with
      | none => lookupAL bfs k
      | some .undef => lookupAL bfs k
      | some (.obj osub) =>
        match lookupAL bfs k with
        | some (.obj bsub) => some (mergeV (.obj bsub) (.obj osub))
        | _ => some (.obj osub)
      | some ov => some ov :=
  ⟨rfl, mergeL_lookup_spec bfs k ofs bfs hnd⟩

/-- Claim C8 witness inputs: a base with a scalar, a nested record and an
untouched key; an override exercising the undefined-skip, the nested
recursion, an explicit empty string and an array replacement. -/
def c8Base : List (String × JValue) :=
  [("a", .num 1), ("t", .obj [("x", .num 1)]), ("keep", .str "base")]

def c8Override : List (String × JValue) :=
  [("a", .undef), ("t", .obj [("y", .num 2)]), ("s", .str ""), ("links", .arr [.num 7])]

/-- Claim C8 witness: the characterisation evaluated on concrete records:
the nested records are merged recursively. -/
theorem mergeConfig_key_semantics_witness :
    (c8Override.map Prod.fst).Nodup ∧
    lookupAL (mergeL c8Base c8Base c8Override) "t"
      = some (.obj [("x", .num 1), ("y", .num 2)]) := by
  have h := mergeConfig_key_semantics c8Base c8Override "t" (by decide)
  refine ⟨by decide, ?_⟩
  rw [h.2]
  rfl

/-- Claim C9 counterexample heap: address 0 holds the base record with a
numeric field a, address 1 the override record whose field a references
the record at address 2. -/
def aliasHeap : Heap :=
  ⟨3, [(0, .record [("a", .num 5)]), (1, .record [("a", .ref 2)]), (2, .record [("x", .num 1)])]⟩

/-- Claim C9 counterexample: because the base value at key a is not a
record, the else branch of the merge stores the override value itself, so
the freshly built result record holds the reference to address 2, the
nested record of the override: the result aliases the override, refuting
the claim that each level of the result is a fresh record. -/
theorem mergeConfig_aliases_override_record :
    mergeConfigH 3 aliasHeap 0 1 =
      some (⟨4, [(3, .record [("a", .ref 2)]), (0, .record [("a", .num 5)]),
                 (1, .record [("a", .ref 2)]), (2, .record [("x", .num 1)])]⟩, 3) ∧
    aliasHeap.get 2 = some (.record [("x", .num 1)]) := by
  refine ⟨by decide, by decide⟩

/-- Claim C9 amended: a successful merge over a well-formed heap mutates
neither input (every pre-existing address still holds its old object) and
allocates the result record at a fresh address; freshness of nested levels
holds only when both sides are records, because an override value that is
an array, or a record merged against a non-record base value, is stored
into the result by reference. -/
theorem mergeConfigH_no_mutation (fuel : Nat) (h : Heap) (b o : Nat) (h' : Heap) (r : Nat)
    (hw : h.wfB = true) (hm : mergeConfigH fuel h b o = some (h', r)) :
    heapAgrees h h' ∧ h.get r = none ∧ ∃ flds, h'.get r = some (.record flds) := by
  obtain ⟨hag, _, hr1, _, hrec⟩ := (mergeH_preserves fuel).1 h b o h' r hm
  exact ⟨hag, Heap.get_ge_none h hw r hr1, hrec⟩

/-- Claim C9 amended result heap at the witness input. -/
def c9ResultHeap : Heap :=
  ⟨4, [(3, .record [("a", .ref 2)]), (0, .record [("a", .num 5)]),
       (1, .record [("a", .ref 2)]), (2, .record [("x", .num 1)])]⟩

/-- Claim C9 witness: the no-mutation statement evaluated at the concrete
heap. -/
theorem mergeConfigH_no_mutation_witness :
    heapAgrees aliasHeap c9ResultHeap ∧ aliasHeap.get 3 = none ∧
    ∃ flds, c9ResultHeap.get 3 = some (.record flds) :=
  mergeConfigH_no_mutation 3 aliasHeap 0 1 c9ResultHeap 3 (by decide) (by decide)

/-- Claim C10: the dangerous-scheme blocklist of validateUrl is tested
against the entire URL string: any URL whose parsed protocol is on the
allowlist but which contains a blocklisted substring anywhere (for
instance in its query string) is rejected. -/
theorem validateUrl_blocklist_whole_string (url : String)
    (hallow : allowedByScheme url = true) (hdanger : dangerousTest url = true) :
    validateUrl url = false := by
  unfold validateUrl
  unfold allowedByScheme at hallow
  rcases hp : parseURL url with _ | u
  · rw [hp] at hallow
  · rw [hp] at hallow
    simp at hallow
    simp [hallow, hdanger]

/-- Claim C10 witness: an https URL carrying data: inside its query string
is accepted by the scheme allowlist, matches the blocklist, and is
rejected by validateUrl. -/
theorem validateUrl_blocklist_whole_string_witness :
    allowedByScheme "https://example.com/?q=data:text" = true ∧
    dangerousTest "https://example.com/?q=data:text" = true ∧
    validateUrl "https://example.com/?q=data:text" = false :=
  ⟨by decide, by decide,
    validateUrl_blocklist_whole_string "https://example.com/?q=data:text" (by decide) (by decide)⟩
